import Mathlib

/-!
Formal model of the scene-graph-to-articulated-body converter of SmileX-Tools.

The definitions below are a shallow embedding of the two conversion scripts
`python/capture/src/usdToUrdf3.py` (class `UsdToUrdfConverter`: recursive prim
traversal with a transform stack, link/joint synthesis) and
`python/capture/src/usdToUrdf2.py` (OBJ mesh export: face-line construction,
and the material/texture resolver's idempotent texture copy).

Conventions of the embedding:
* USD `Gf.Matrix4d` values are modelled as 4x4 matrices over an arbitrary
  commutative ring `α` (concrete scenes in the theorems use `ℤ`); `Gf` uses
  the row-vector convention, so the translation component sits in row 3
  (`transform[3][0..2]` in the source) and the local-to-world transform of a
  prim is `localXf * parentWorld`.
* The external `pxr` library call `Xformable.ComputeLocalToWorldTransform`
  (USD: the transformation of the prim composed with that of all its
  ancestors) is modelled by threading the parent's local-to-world matrix
  `ancWorld` through the traversal and composing `p.localXf * ancWorld`.
* Python sets of strings are modelled as `List String` with membership
  insertion; Python `list.append`/`pop()` on the transform stack becomes
  cons/tail on a list whose head is the stack top.
* Fallible float attributes (`GetRadiusAttr().Get()` returning `None` when
  unauthored) are `Option ℚ`; the Python `x or default` idiom on floats is
  `pyOr` (both `None` and `0.0` are falsy).
* The accumulated URDF document (`self.urdf_root`) is projected to the two
  lists of records the claims concern: links (name, origin transform,
  geometry) and joints (name, type, parent, child, origin transform).
-/

/-- The prim type tags distinguished by `_traverse_prim` and
`_is_geometric_prim` (pseudo-root, `Xform`, the four geometric kinds), plus
the other USD prim kinds that fall through every branch (`Scope`,
`Material`, `Shader`). -/
inductive PrimType where
  | pseudoRoot
  | xform
  | mesh
  | cylinder
  | sphere
  | cone
  | scope
  | material
  | shader
deriving DecidableEq, Repr

/-- Models `prim.GetTypeName()`: the USD type-name string of a prim (the
pseudo-root has no type name). -/
def typeName : PrimType → String
  | .pseudoRoot => ""
  | .xform => "Xform"
  | .mesh => "Mesh"
  | .cylinder => "Cylinder"
  | .sphere => "Sphere"
  | .cone => "Cone"
  | .scope => "Scope"
  | .material => "Material"
  | .shader => "Shader"

/-- A row (or column) of a `Gf.Matrix4d`. -/
structure Vec4 (α : Type) where
  c0 : α
  c1 : α
  c2 : α
  c3 : α
deriving DecidableEq, Repr

/-- Models `Gf.Matrix4d`: a 4x4 matrix given by its four rows. -/
structure Mat4 (α : Type) where
  r0 : Vec4 α
  r1 : Vec4 α
  r2 : Vec4 α
  r3 : Vec4 α
deriving DecidableEq, Repr

/-- Dot product of two `Vec4`s. -/
def Vec4.dot [Mul α] [Add α] (u v : Vec4 α) : α :=
  u.c0 * v.c0 + u.c1 * v.c1 + u.c2 * v.c2 + u.c3 * v.c3

/-- Column `j = 0` of a matrix. -/
def Mat4.col0 (m : Mat4 α) : Vec4 α := ⟨m.r0.c0, m.r1.c0, m.r2.c0, m.r3.c0⟩

/-- Column `j = 1` of a matrix. -/
def Mat4.col1 (m : Mat4 α) : Vec4 α := ⟨m.r0.c1, m.r1.c1, m.r2.c1, m.r3.c1⟩

/-- Column `j = 2` of a matrix. -/
def Mat4.col2 (m : Mat4 α) : Vec4 α := ⟨m.r0.c2, m.r1.c2, m.r2.c2, m.r3.c2⟩

/-- Column `j = 3` of a matrix. -/
def Mat4.col3 (m : Mat4 α) : Vec4 α := ⟨m.r0.c3, m.r1.c3, m.r2.c3, m.r3.c3⟩

/-- Models `Gf.Matrix4d.__mul__`: ordinary matrix multiplication. -/
def Mat4.mul [Mul α] [Add α] (a b : Mat4 α) : Mat4 α :=
  ⟨⟨a.r0.dot b.col0, a.r0.dot b.col1, a.r0.dot b.col2, a.r0.dot b.col3⟩,
   ⟨a.r1.dot b.col0, a.r1.dot b.col1, a.r1.dot b.col2, a.r1.dot b.col3⟩,
   ⟨a.r2.dot b.col0, a.r2.dot b.col1, a.r2.dot b.col2, a.r2.dot b.col3⟩,
   ⟨a.r3.dot b.col0, a.r3.dot b.col1, a.r3.dot b.col2, a.r3.dot b.col3⟩⟩

instance [Mul α] [Add α] : Mul (Mat4 α) := ⟨Mat4.mul⟩

/-- The identity transform (`Gf.Matrix4d(1)`). -/
def Mat4.identity [Zero α] [One α] : Mat4 α :=
  ⟨⟨1, 0, 0, 0⟩, ⟨0, 1, 0, 0⟩, ⟨0, 0, 1, 0⟩, ⟨0, 0, 0, 1⟩⟩

/-- A pure translation transform in the `Gf` row-vector convention: the
offset occupies the fourth row. -/
def Mat4.translate [Zero α] [One α] (tx ty tz : α) : Mat4 α :=
  ⟨⟨1, 0, 0, 0⟩, ⟨0, 1, 0, 0⟩, ⟨0, 0, 1, 0⟩, ⟨tx, ty, tz, 1⟩⟩

/-- A pure translation along the x axis. -/
def Mat4.translateX [Zero α] [One α] (t : α) : Mat4 α := Mat4.translate t 0 0

/-- Models the translation extraction of `_transform_to_origin`:
`(transform[3][0], transform[3][1], transform[3][2])`. -/
def Mat4.translationOf (m : Mat4 α) : α × α × α := (m.r3.c0, m.r3.c1, m.r3.c2)

mutual
/-- A USD prim as the traversal consumes it: its path string, type tag,
authored transform, the radius/height attributes read by the primitive-shape
exporters (`none` models an unauthored attribute), and its children in
stage order. -/
inductive Prim (α : Type) where
  | mk (path : String) (ty : PrimType) (localXf : Mat4 α)
       (radiusAttr heightAttr : Option ℚ) (children : PrimList α)
deriving DecidableEq

/-- The ordered child list of a prim (`prim.GetChildren()`). -/
inductive PrimList (α : Type) where
  | nil
  | cons (head : Prim α) (tail : PrimList α)
deriving DecidableEq
end

/-- The path of a prim (`prim.GetPath().pathString`). -/
def Prim.path : Prim α → String
  | .mk p _ _ _ _ _ => p

/-- The type tag of a prim. -/
def Prim.ty : Prim α → PrimType
  | .mk _ t _ _ _ _ => t

/-- The authored transform of a prim. -/
def Prim.localXf : Prim α → Mat4 α
  | .mk _ _ m _ _ _ => m

/-- The children of a prim. -/
def Prim.children : Prim α → PrimList α
  | .mk _ _ _ _ _ c => c

/-- Models `_is_geometric_prim` on the type tag:
`prim.IsA(UsdGeom.Mesh) or prim.IsA(UsdGeom.Cylinder) or
prim.IsA(UsdGeom.Sphere) or prim.IsA(UsdGeom.Cone)`. -/
def isGeometricTy (t : PrimType) : Bool :=
  t = PrimType.mesh || t = PrimType.cylinder || t = PrimType.sphere ||
    t = PrimType.cone

/-- Models `_is_geometric_prim(prim)` of `usdToUrdf3.py`. -/
def isGeometricPrim (p : Prim α) : Bool := isGeometricTy p.ty

/-- Models the Python idiom `attr.Get() or default` on a float attribute:
`None` (unauthored) and `0.0` are both falsy, so either yields the
default. -/
def pyOr (v : Option ℚ) (d : ℚ) : ℚ :=
  match v with
  | none => d
  | some x => if x = 0 then d else x

/-- Models Python truthiness of the `parent_link` argument (a string or
`None`): `None` and the empty string are falsy. -/
def pyTruthyName : Option String → Bool
  | none => false
  | some s => !(s == "")

/-- Characters of the final path component: everything after the last `/`
(the character-level computation of `os.path.basename`). -/
def basenameChars (cs : List Char) : List Char :=
  cs.foldl (fun acc c => if c = '/' then [] else acc ++ [c]) []

/-- Models `os.path.basename` on POSIX-style prim paths. -/
def basename (s : String) : String := String.mk (basenameChars s.data)

/-- Models `s.replace("/", "_")` (a single-character replacement). -/
def replaceSlash (s : String) : String :=
  String.mk (s.data.map (fun c => if c = '/' then '_' else c))

/-- Models `_generate_link_name`: basename of the prim path with separators
replaced; falls back to `link_<counter>` (bumping the counter) when that is
empty.  Returns the name together with the updated `link_id_counter`. -/
def generateLinkName (primPath : String) (linkIdCounter : ℕ) : String × ℕ :=
  let baseName := replaceSlash (basename primPath)
  if baseName = "" then ("link_" ++ toString linkIdCounter, linkIdCounter + 1)
  else (baseName, linkIdCounter)

/-- Models `_generate_joint_name`: basename of the prim path with separators
replaced, suffixed `_joint`; the `joint_<counter>` fallback of the source is
kept although the suffix makes the name nonempty. -/
def generateJointName (primPath : String) (jointIdCounter : ℕ) : String × ℕ :=
  let baseName := replaceSlash (basename primPath) ++ "_joint"
  if baseName = "" then
    ("joint_" ++ toString jointIdCounter, jointIdCounter + 1)
  else (baseName, jointIdCounter)

/-- The geometry content of a link's `<geometry>` element as produced by
`_add_mesh_geometry`, `_add_cylinder_geometry`, `_add_sphere_geometry` and
`_add_cone_geometry`; `empty` stands for a `<geometry>` element none of the
four handlers filled in. -/
inductive GeomRec where
  | meshGeom (filename : String)
  | cylinderGeom (radius length : ℚ)
  | sphereGeom (radius : ℚ)
  | coneGeom (radius length : ℚ)
  | empty
deriving DecidableEq, Repr

/-- Models `_add_mesh_geometry`: the geometry references
`<prim path with / replaced by _>.stl`. -/
def addMeshGeometry (primPath : String) : GeomRec :=
  GeomRec.meshGeom (replaceSlash primPath ++ ".stl")

/-- Models `_add_cylinder_geometry`:
`radius = cylinder.GetRadiusAttr().Get() or 0.1` and
`height = cylinder.GetHeightAttr().Get() or 0.2`. -/
def addCylinderGeometry (radiusAttr heightAttr : Option ℚ) : GeomRec :=
  GeomRec.cylinderGeom (pyOr radiusAttr 0.1) (pyOr heightAttr 0.2)

/-- Models `_add_sphere_geometry`: `radius = ... or 0.1`. -/
def addSphereGeometry (radiusAttr : Option ℚ) : GeomRec :=
  GeomRec.sphereGeom (pyOr radiusAttr 0.1)

/-- Models `_add_cone_geometry`: `radius = ... or 0.1`, `height = ... or
0.2`. -/
def addConeGeometry (radiusAttr heightAttr : Option ℚ) : GeomRec :=
  GeomRec.coneGeom (pyOr radiusAttr 0.1) (pyOr heightAttr 0.2)

/-- The geometry dispatch of `_create_link` (`if prim.IsA(UsdGeom.Mesh): ...
elif ...`). -/
def geomOf (ty : PrimType) (primPath : String)
    (radiusAttr heightAttr : Option ℚ) : GeomRec :=
  if ty = PrimType.mesh then addMeshGeometry primPath
  else if ty = PrimType.cylinder then addCylinderGeometry radiusAttr heightAttr
  else if ty = PrimType.sphere then addSphereGeometry radiusAttr
  else if ty = PrimType.cone then addConeGeometry radiusAttr heightAttr
  else GeomRec.empty

/-- One `<link>` element of the output document, projected to the data the
source writes into it: its name, the transform `_transform_to_origin`
serializes as the link origin, and its geometry. -/
structure LinkRec (α : Type) where
  name : String
  originXf : Mat4 α
  geom : GeomRec
deriving DecidableEq

/-- One `<joint>` element of the output document: name, joint type, parent
and child link names, and the transform serialized as the joint origin. -/
structure JointRec (α : Type) where
  name : String
  jointType : String
  parent : String
  child : String
  originXf : Mat4 α
deriving DecidableEq

/-- The mutable fields of `UsdToUrdfConverter`: the accumulated document
(links and joints), the two name counters, the transform stack (head = top)
and the visited-path set. -/
structure ConvState (α : Type) where
  links : List (LinkRec α)
  joints : List (JointRec α)
  linkIdCounter : ℕ
  jointIdCounter : ℕ
  transformStack : List (Mat4 α)
  visitedLinks : List String
deriving DecidableEq

/-- Models `UsdToUrdfConverter.__init__`: empty document, zeroed counters,
empty stack and visited set. -/
def initState : ConvState α :=
  ⟨[], [], 0, 0, [], []⟩

/-- Models `_create_link`: appends a `<link>` element (with the origin
derived from `transform` and the geometry dispatched on the prim type) to
the document and returns the link name. -/
def createLink (st : ConvState α) (linkName : String) (ty : PrimType)
    (primPath : String) (radiusAttr heightAttr : Option ℚ)
    (transform : Mat4 α) : ConvState α :=
  { st with
      links := st.links ++
        [⟨linkName, transform, geomOf ty primPath radiusAttr heightAttr⟩] }

/-- Models `_create_joint`: appends a fixed `<joint>` element whose origin is
derived from `transform`. -/
def createJoint (st : ConvState α) (jointName parentLink childLink : String)
    (transform : Mat4 α) : ConvState α :=
  { st with
      joints := st.joints ++
        [⟨jointName, "fixed", parentLink, childLink, transform⟩] }

mutual
/-- Models `_traverse_prim` of `usdToUrdf3.py` (lines 30-77).  The extra
parameter `ancWorld` is the local-to-world transform of the parent prim on
the stage; it stands for the scene context the external
`ComputeLocalToWorldTransform` call reads, which returns the prim's
transform composed with that of all of its ancestors (`xf * ancWorld` in
the `Gf` row-vector convention).  The converter state is destructured at
entry and rebuilt field by field, which is exactly how the source mutates
the instance fields: the visited check and insertion (lines 35-38), the
stack composition `parent_transform * local_transform` (lines 44-46),
push/recurse/pop around the children for the pseudo-root and `Xform`
branches (lines 49-63), link/joint synthesis followed by recursion into the
children with the new link as parent for geometric prims (lines 66-77), and
a plain fall-through return for every other prim type. -/
def traversePrim [Mul α] [Add α] (st : ConvState α) (p : Prim α)
    (ancWorld : Mat4 α) (parentLink : Option String) (isRoot : Bool) :
    ConvState α :=
  match st, p with
  | ⟨links, joints, linkC, jointC, stack, vis⟩,
    .mk primPath ty xf radiusAttr heightAttr children =>
    if primPath ∈ vis then ⟨links, joints, linkC, jointC, stack, vis⟩
    else
      let vis1 := primPath :: vis
      let l2w := xf * ancWorld
      let localTransform :=
        match stack with
        | [] => l2w
        | parentTransform :: _ => parentTransform * l2w
      if ty = PrimType.pseudoRoot then
        let st3 := traverseList ⟨links, joints, linkC, jointC,
          localTransform :: stack, vis1⟩ children l2w parentLink
        ⟨st3.links, st3.joints, st3.linkIdCounter, st3.jointIdCounter,
         st3.transformStack.tail, st3.visitedLinks⟩
      else if typeName ty = "Xform" then
        let st3 := traverseList ⟨links, joints, linkC, jointC,
          localTransform :: stack, vis1⟩ children l2w parentLink
        ⟨st3.links, st3.joints, st3.linkIdCounter, st3.jointIdCounter,
         st3.transformStack.tail, st3.visitedLinks⟩
      else if isGeometricTy ty then
        let r := generateLinkName primPath linkC
        let st3 :=
          createLink ⟨links, joints, r.2, jointC, stack, vis1⟩ r.1 ty
            primPath radiusAttr heightAttr localTransform
        let st4 :=
          if isRoot = false && pyTruthyName parentLink then
            let rj := generateJointName primPath st3.jointIdCounter
            createJoint { st3 with jointIdCounter := rj.2 } rj.1
              (parentLink.getD "") r.1 localTransform
          else st3
        traverseList st4 children l2w (some r.1)
      else
        ⟨links, joints, linkC, jointC, stack, vis1⟩

/-- The `for child_prim in prim.GetChildren(): self._traverse_prim(...)`
loops of `_traverse_prim`, with the parent-link reference and the parent local-to-world transform fixed for the whole sibling list. -/
def traverseList [Mul α] [Add α] (st : ConvState α) (ps : PrimList α)
    (ancWorld : Mat4 α) (parentLink : Option String) : ConvState α :=
  match ps with
  | .nil => st
  | .cons c cs =>
    traverseList (traversePrim st c ancWorld parentLink false) cs ancWorld
      parentLink
end

/-- Models `UsdToUrdfConverter.convert`: opening the stage is external I/O;
the conversion itself traverses from the pseudo-root with
`parent_link=None, is_root=True` and then serializes `self.urdf_root` - the
emitted document is the `links` and `joints` fields of the resulting
state.  Note that `convert` operates on whatever state the instance already
carries (`initState` only for a freshly constructed converter). -/
def convert [Mul α] [Add α] [Zero α] [One α] (st : ConvState α)
    (rootPrim : Prim α) : ConvState α :=
  traversePrim st rootPrim Mat4.identity none true

/-- Modelled from the spec: the composed frame
`composed(node) = composed(parent) * local(node)` of the node at the end of
a root-to-node chain of local transforms, i.e. the left-to-right product of
the chain. -/
def composedOfChain [Mul α] [Add α] [Zero α] [One α]
    (locals : List (Mat4 α)) : Mat4 α :=
  locals.foldl (fun acc l => acc * l) Mat4.identity

mutual
/-- Modelled from the spec: the walker's visiting discipline, stripped of
transform and document bookkeeping.  Returns the visited-path set after the
subtree together with the number of distinct geometric prims the walker
converts in it (each geometric prim is counted exactly when its path was
not yet visited, and its path is marked before anything below it is
processed). -/
def visitSpecPrim (vis : List String) (p : Prim α) : List String × ℕ :=
  match p with
  | .mk primPath ty _ _ _ children =>
    if primPath ∈ vis then (vis, 0)
    else
      let vis1 := primPath :: vis
      if ty = PrimType.pseudoRoot then visitSpecList vis1 children
      else if typeName ty = "Xform" then visitSpecList vis1 children
      else if isGeometricTy ty then
        let r := visitSpecList vis1 children
        (r.1, r.2 + 1)
      else (vis1, 0)

/-- The sibling-list version of `visitSpecPrim`. -/
def visitSpecList (vis : List String) (ps : PrimList α) : List String × ℕ :=
  match ps with
  | .nil => (vis, 0)
  | .cons c cs =>
    let r := visitSpecPrim vis c
    let r2 := visitSpecList r.1 cs
    (r2.1, r.2 + r2.2)
end

/-- Builds a `PrimList` from a Lean list (scene-construction convenience). -/
def PrimList.ofList : List (Prim α) → PrimList α
  | [] => .nil
  | p :: ps => .cons p (PrimList.ofList ps)

/-- A prim with no authored radius/height attribute (scene-construction
convenience for groups and meshes). -/
def plainPrim (primPath : String) (ty : PrimType) (xf : Mat4 ℤ)
    (cs : List (Prim ℤ)) : Prim ℤ :=
  .mk primPath ty xf none none (PrimList.ofList cs)

/-- Scenario B of the spec: a pseudo-root over `Xform /g1` (translated by 1
along x), a mesh `/g1/m1` (identity local transform), an intermediate
`Xform /g1/m1/g2` (translated by 1 along x) and a second mesh
`/g1/m1/g2/m2` (identity local transform). -/
def sceneGroupMeshGroupMesh : Prim ℤ :=
  plainPrim "/" .pseudoRoot Mat4.identity
    [plainPrim "/g1" .xform (Mat4.translateX 1)
      [plainPrim "/g1/m1" .mesh Mat4.identity
        [plainPrim "/g1/m1/g2" .xform (Mat4.translateX 1)
          [plainPrim "/g1/m1/g2/m2" .mesh Mat4.identity []]]]]

/-- A pseudo-root over `Xform /a` (translated by 1 along x) over a mesh
`/a/b` with identity local transform. -/
def sceneNestedXform : Prim ℤ :=
  plainPrim "/" .pseudoRoot Mat4.identity
    [plainPrim "/a" .xform (Mat4.translateX 1)
      [plainPrim "/a/b" .mesh Mat4.identity []]]

/-- A pseudo-root over a single mesh `/g/m` below a transparent `Xform`
group `/g`. -/
def sceneXformOverMesh : Prim ℤ :=
  plainPrim "/" .pseudoRoot Mat4.identity
    [plainPrim "/g" .xform Mat4.identity
      [plainPrim "/g/m" .mesh Mat4.identity []]]

/-- First independent scene of the reuse scenario: a pseudo-root over a
single mesh `/m1`. -/
def sceneRunOne : Prim ℤ :=
  plainPrim "/" .pseudoRoot Mat4.identity
    [plainPrim "/m1" .mesh Mat4.identity []]

/-- Second independent scene of the reuse scenario: a pseudo-root over a
single mesh `/m2`. -/
def sceneRunTwo : Prim ℤ :=
  plainPrim "/" .pseudoRoot Mat4.identity
    [plainPrim "/m2" .mesh Mat4.identity []]

/-- A `Scope` prim `/s` with a mesh child `/s/m`: a prim whose type is
handled by none of the traversal branches. -/
def sceneScopeOverMesh : Prim ℤ :=
  plainPrim "/s" .scope Mat4.identity
    [plainPrim "/s/m" .mesh Mat4.identity []]

/-!  Embedding of the OBJ face-section construction of
`usdToUrdf2.py::export_meshes` (lines 224-250). -/

/-- Models the per-vertex index group of the face loop (lines 237-247):
`vertex_idx = idx + 1` and one of four formats depending on the presence of
texture coordinates and normals. -/
def faceVertexStr (hasTexCoords hasNormals : Bool) (idx : ℤ) : String :=
  let vertexIdx := idx + 1
  if hasTexCoords && hasNormals then
    " " ++ toString vertexIdx ++ "/" ++ toString vertexIdx ++ "/" ++
      toString vertexIdx
  else if hasTexCoords then
    " " ++ toString vertexIdx ++ "/" ++ toString vertexIdx
  else if hasNormals then
    " " ++ toString vertexIdx ++ "//" ++ toString vertexIdx
  else
    " " ++ toString vertexIdx

/-- Models the construction of `face_str` (starting from `"f"` and appending
one index group per vertex of the polygon). -/
def faceLine (hasTexCoords hasNormals : Bool) (indices : List ℤ) : String :=
  indices.foldl
    (fun faceStr idx => faceStr ++ faceVertexStr hasTexCoords hasNormals idx)
    "f"

/-- Models the outer face loop (lines 225-250): walk `face_vertex_counts`,
slice `face_vertex_indices[current_vertex_index : current_vertex_index +
count]` and advance the cursor by `count`. -/
def faceLinesGo (hasTexCoords hasNormals : Bool)
    (faceVertexIndices : List ℤ) : ℕ → List ℕ → List String
  | _, [] => []
  | currentVertexIndex, count :: rest =>
    faceLine hasTexCoords hasNormals
        ((faceVertexIndices.drop currentVertexIndex).take count) ::
      faceLinesGo hasTexCoords hasNormals faceVertexIndices
        (currentVertexIndex + count) rest

/-- The face section of an exported OBJ file: one face line per entry of
`face_vertex_counts`, starting at cursor `0`. -/
def faceLines (hasTexCoords hasNormals : Bool) (faceVertexCounts : List ℕ)
    (faceVertexIndices : List ℤ) : List String :=
  faceLinesGo hasTexCoords hasNormals faceVertexIndices 0 faceVertexCounts

/-- Modelled from the spec: splitting the flat face-vertex-index buffer into
consecutive chunks of the per-face vertex counts. -/
def chunksOf : List ℕ → List ℤ → List (List ℤ)
  | [], _ => []
  | c :: cs, xs => xs.take c :: chunksOf cs (xs.drop c)

/-- Modelled from the spec: the four face-vertex formats
(`idx/idx/idx` with both attributes, `idx/idx` with texture coordinates
only, `idx//idx` with normals only, `idx` with neither), each using the
one-based index `idx + 1`. -/
def specVertexGroup : Bool → Bool → ℤ → String
  | true, true, idx =>
    " " ++ toString (idx + 1) ++ "/" ++ toString (idx + 1) ++ "/" ++
      toString (idx + 1)
  | true, false, idx => " " ++ toString (idx + 1) ++ "/" ++ toString (idx + 1)
  | false, true, idx =>
    " " ++ toString (idx + 1) ++ "//" ++ toString (idx + 1)
  | false, false, idx => " " ++ toString (idx + 1)

/-!  Embedding of the texture-copy step of
`usdToUrdf2.py::write_material_file` (lines 280-340). -/

/-- An association-list lookup: used both for the on-disk file system
(path → file content, `os.path.exists` is `≠ none`) and for the
`texture_files` dictionary (semantic type → source path). -/
def alLookup : List (String × String) → String → Option String
  | [], _ => none
  | (k, v) :: rest, key => if k = key then some v else alLookup rest key

/-- Models `os.path.join(textures_dir, os.path.basename(src_texture))`: the
destination path of a copied texture. -/
def texDest (texturesDir src : String) : String :=
  texturesDir ++ "/" ++ basename src

/-- Models one texture-copy attempt of `write_material_file`:
`if not os.path.exists(dest_texture): shutil.copy2(src_texture,
dest_texture)` inside a `try`/`except`.  If the destination exists nothing
happens; otherwise the source content is copied; a missing source makes
`copy2` raise, the handler logs, and the file system is unchanged. -/
def copyTexIfAbsent (fs : List (String × String)) (texturesDir src : String) :
    List (String × String) :=
  match alLookup fs (texDest texturesDir src) with
  | some _ => fs
  | none =>
    match alLookup fs src with
    | some content => (texDest texturesDir src, content) :: fs
    | none => fs

/-- The file-system effect of the texture-copy steps of
`write_material_file`: the diffuse entry first (lines 281-296), then the
normal entry (lines 299-311), then every remaining entry of
`texture_files` in dictionary order (lines 314-340).  The material-file
writing itself is outside the texture directory and not modelled here. -/
def writeMaterialTexCopies (fs : List (String × String))
    (texturesDir : String) (textureFiles : List (String × String)) :
    List (String × String) :=
  let fs1 :=
    match alLookup textureFiles "diffuse" with
    | some src => copyTexIfAbsent fs texturesDir src
    | none => fs
  let fs2 :=
    match alLookup textureFiles "normal" with
    | some src => copyTexIfAbsent fs1 texturesDir src
    | none => fs1
  textureFiles.foldl
    (fun acc p =>
      if p.1 == "diffuse" || p.1 == "normal" then acc
      else copyTexIfAbsent acc texturesDir p.2)
    fs2

/-- A sequence of texture-copy attempts against one textures directory. -/
def copySteps (fs : List (String × String)) (texturesDir : String)
    (srcs : List String) : List (String × String) :=
  srcs.foldl (fun acc src => copyTexIfAbsent acc texturesDir src) fs

/-- The source paths `write_material_file` attempts to copy, in execution
order: the diffuse entry, the normal entry, then the remaining entries. -/
def copySrcOrder (textureFiles : List (String × String)) : List String :=
  (match alLookup textureFiles "diffuse" with
   | some src => [src]
   | none => []) ++
  (match alLookup textureFiles "normal" with
   | some src => [src]
   | none => []) ++
  (textureFiles.filter
    (fun p => !(p.1 == "diffuse" || p.1 == "normal"))).map Prod.snd

/-- The argument handed to `asin` by line 230 of `usdToUrdf3.py`,
`pitch = np.arcsin(2 * (qw * qy - qz * qx))`, over exact rationals. -/
def pitchArg (qw qx qy qz : ℚ) : ℚ := 2 * (qw * qy - qz * qx)

/-- Concrete file system for the texture-copy scenario: the destination
`textures/wood.png` already holds content `old`, the source
`/assets/wood.png` holds content `new`. -/
def fsWood : List (String × String) :=
  [("textures/wood.png", "old"), ("/assets/wood.png", "new")]

/-- Concrete `texture_files` dictionary: one diffuse texture at
`/assets/wood.png`. -/
def texFilesWood : List (String × String) := [("diffuse", "/assets/wood.png")]

/-- The `GetTypeName() == "Xform"` test of the source distinguishes exactly
the `Xform` type tag. -/
theorem typeName_eq_xform_iff (t : PrimType) :
    typeName t = "Xform" ↔ t = PrimType.xform := by
  cases t <;> simp [typeName]

mutual
/-- The walker refines `visitSpecPrim`: its visited set evolves exactly as
the spec-side visiting discipline prescribes, and it appends exactly one
link per geometric prim counted there. -/
theorem traversePrim_tracks [Mul α] [Add α] (st : ConvState α) (p : Prim α)
    (ancWorld : Mat4 α) (parentLink : Option String) (isRoot : Bool) :
    (traversePrim st p ancWorld parentLink isRoot).visitedLinks =
      (visitSpecPrim st.visitedLinks p).1 ∧
    (traversePrim st p ancWorld parentLink isRoot).links.length =
      st.links.length + (visitSpecPrim st.visitedLinks p).2 := by
  match st, p with
  | ⟨links, joints, lc, jc, stack, vis⟩, .mk primPath ty xf rA hA children =>
    simp only [traversePrim, visitSpecPrim]
    by_cases hv : primPath ∈ vis
    · simp [hv]
    · simp only [if_neg hv]
      by_cases hpr : ty = PrimType.pseudoRoot
      · simp only [if_pos hpr]
        constructor
        · exact (traverseList_tracks _ children _ _).1
        · exact (traverseList_tracks _ children _ _).2
      · simp only [if_neg hpr]
        by_cases hxf : typeName ty = "Xform"
        · simp only [if_pos hxf]
          constructor
          · exact (traverseList_tracks _ children _ _).1
          · exact (traverseList_tracks _ children _ _).2
        · simp only [if_neg hxf]
          by_cases hg : isGeometricTy ty = true
          · simp only [if_pos hg]
            constructor
            · rw [(traverseList_tracks _ children _ _).1]
              congr 1
              rw [apply_ite ConvState.visitedLinks]
              simp [createLink, createJoint]
            · rw [(traverseList_tracks _ children _ _).2]
              rw [apply_ite ConvState.links, apply_ite ConvState.visitedLinks]
              simp [createLink, createJoint]
              omega
          · simp only [if_neg hg]
            simp

/-- Sibling-list version of `traversePrim_tracks`. -/
theorem traverseList_tracks [Mul α] [Add α] (st : ConvState α)
    (ps : PrimList α) (ancWorld : Mat4 α) (parentLink : Option String) :
    (traverseList st ps ancWorld parentLink).visitedLinks =
      (visitSpecList st.visitedLinks ps).1 ∧
    (traverseList st ps ancWorld parentLink).links.length =
      st.links.length + (visitSpecList st.visitedLinks ps).2 := by
  match ps with
  | .nil => simp [traverseList, visitSpecList]
  | .cons c cs =>
    have hp := traversePrim_tracks st c ancWorld parentLink false
    have hl := traverseList_tracks (traversePrim st c ancWorld parentLink
      false) cs ancWorld parentLink
    simp only [traverseList, visitSpecList]
    constructor
    · rw [hl.1, hp.1]
    · rw [hl.2, hp.2, hp.1]
      omega
end

/-- Claim C1: in the group→mesh→group→mesh scene the converter produces the
expected two links and single joint connecting them, but the joint origin
it emits is the child mesh's stack-accumulated transform (translation
`x = 5` here, which moreover double-counts ancestor transforms), not the
relative transform between the parent's and child's composed frames: the
composed frames of the two meshes are `translate 1` and `translate 2`, so
the relative transform is `translate 1`, and `translate 5 ≠ translate 1`.
The code passes `local_transform` (the accumulated value) straight to
`_create_joint`; no relative delta is ever computed. -/
theorem c1_joint_origin_is_accumulated_not_relative :
    (convert initState sceneGroupMeshGroupMesh).links =
      [⟨"m1", Mat4.translateX 2, GeomRec.meshGeom "_g1_m1.stl"⟩,
       ⟨"m2", Mat4.translateX 5, GeomRec.meshGeom "_g1_m1_g2_m2.stl"⟩] ∧
    (convert initState sceneGroupMeshGroupMesh).joints =
      [⟨"m2_joint", "fixed", "m1", "m2", Mat4.translateX 5⟩] ∧
    composedOfChain
        [Mat4.identity, Mat4.translateX (1 : ℤ), Mat4.identity] *
        Mat4.translateX 1 =
      composedOfChain
        [Mat4.identity, Mat4.translateX 1, Mat4.identity,
         Mat4.translateX 1, Mat4.identity] ∧
    Mat4.translateX (5 : ℤ) ≠ Mat4.translateX 1 :=
  ⟨rfl, rfl, rfl, by decide⟩

/-- Claim C2: the composed transform the walker maintains violates
`composed(node) = composed(parent) * local(node)`.  For the scene
pseudo-root → `Xform /a` (translate 1) → mesh `/a/b` (identity local
transform) the link `b` is emitted with origin `translate 2`: the stack top
(`translate 1`) is multiplied by `ComputeLocalToWorldTransform` of `/a/b`,
which already contains the ancestor transform `translate 1`, so `/a`'s
transform is applied twice; `composed(parent) * local(node)` is
`translate 1`.  Every push is still matched by a pop (the final stack is
empty). -/
theorem c2_composed_transform_double_applies_ancestors :
    (convert initState sceneNestedXform).links =
      [⟨"b", Mat4.translateX 2, GeomRec.meshGeom "_a_b.stl"⟩] ∧
    composedOfChain [Mat4.identity, Mat4.translateX (1 : ℤ)] *
        Mat4.identity =
      Mat4.translateX 1 ∧
    Mat4.translateX (2 : ℤ) ≠ Mat4.translateX 1 ∧
    (convert initState sceneNestedXform).transformStack = [] :=
  ⟨rfl, rfl, by decide, rfl⟩

/-- Claim C3, counterexample: transparent-group paths do populate the
VisitedSet.  Converting pseudo-root → `Xform /g` → mesh `/g/m` leaves the
`Xform` path `/g` (and the pseudo-root path `/`) in `visited_links`,
because line 38 of `usdToUrdf3.py` adds every entered prim's path before
the type dispatch; only one link is created. -/
theorem c3_counterexample_group_paths_in_visited_set :
    (convert initState sceneXformOverMesh).visitedLinks =
      ["/g/m", "/g", "/"] ∧
    (convert initState sceneXformOverMesh).links.length = 1 :=
  ⟨rfl, rfl⟩

/-- Claim C3, amended: every prim the walker enters - the pseudo-root and
transparent groups included - adds its path to the VisitedSet, and the
count invariant survives: the number of Links created equals the number of
distinct geometric prims processed (`visitSpecPrim` counts a geometric prim
exactly when its path was not yet visited and marks the path before
anything below it is processed, so no path is ever converted to a Link
twice). -/
theorem c3_amended_visited_marks_all_and_links_count_geometric [Mul α]
    [Add α] (st : ConvState α) (p : Prim α) (ancWorld : Mat4 α)
    (parentLink : Option String) (isRoot : Bool) :
    (traversePrim st p ancWorld parentLink isRoot).visitedLinks =
      (visitSpecPrim st.visitedLinks p).1 ∧
    (traversePrim st p ancWorld parentLink isRoot).links.length =
      st.links.length + (visitSpecPrim st.visitedLinks p).2 :=
  traversePrim_tracks st p ancWorld parentLink isRoot

/-- Claim C4: converter state leaks across `convert` calls.  Converting
scene one (single mesh `/m1`) and then scene two (single mesh `/m2`) on the
same instance returns a state identical to the first run's - the pseudo-root
path `/` is already in `visited_links`, so the second traversal returns
immediately and the emitted document still holds only scene one's link -
whereas a fresh converter on scene two emits the link `m2`. -/
theorem c4_second_convert_replays_first_scene_document :
    convert (convert initState sceneRunOne) sceneRunTwo =
      convert initState sceneRunOne ∧
    (convert initState sceneRunTwo).links =
      [⟨"m2", Mat4.identity, GeomRec.meshGeom "_m2.stl"⟩] ∧
    (convert (convert initState sceneRunOne) sceneRunTwo).links ≠
      (convert initState sceneRunTwo).links :=
  ⟨rfl, rfl, by decide⟩

/-- Claim C5: for the quaternion `qw = 0.7071, qx = 0, qy = 0.7071, qz = 0`
(the 90°-pitch case near gimbal lock) the argument `2 (qw qy − qz qx)` the
code hands to `asin` lies within `[-1, 1]` - it is `0.99998082` exactly - so
`np.arcsin` is evaluated inside its domain (no domain error, finite result):
`Real.sin (Real.arcsin x) = x` holds for it, which is exactly the in-domain
characterisation of `asin`. -/
theorem c5_gimbal_lock_pitch_arg_within_asin_domain :
    (-1 ≤ pitchArg 0.7071 0 0.7071 0 ∧ pitchArg 0.7071 0 0.7071 0 ≤ 1) ∧
    Real.sin (Real.arcsin ((pitchArg 0.7071 0 0.7071 0 : ℚ) : ℝ)) =
      ((pitchArg 0.7071 0 0.7071 0 : ℚ) : ℝ) := by
  constructor
  · constructor <;> norm_num [pitchArg]
  · rw [Real.sin_arcsin] <;> norm_num [pitchArg]

/-- The outer face loop computes the chunk decomposition of the flat index
buffer: with the cursor at `cur`, the remaining lines are the chunked lines
of the buffer with its first `cur` entries dropped. -/
theorem faceLinesGo_eq_chunksOf (hasTex hasNorm : Bool) (idxs : List ℤ)
    (counts : List ℕ) :
    ∀ cur : ℕ,
      faceLinesGo hasTex hasNorm idxs cur counts =
        (chunksOf counts (idxs.drop cur)).map (faceLine hasTex hasNorm) := by
  induction counts with
  | nil => intro cur; rfl
  | cons c cs ih =>
    intro cur
    simp only [faceLinesGo, chunksOf, List.map_cons, List.cons.injEq,
      true_and]
    rw [ih (cur + c)]
    congr 2
    rw [List.drop_drop, Nat.add_comm]

/-- Claim C6: the face section walks the flat face-vertex-index buffer in
consecutive chunks of `face_vertex_counts[i]` (one face line per count
entry), and each face vertex is written as the one-based index `idx + 1`
in exactly one of the four formats of `specVertexGroup`, selected by the
presence of texture coordinates and normals. -/
theorem c6_face_section_chunked_one_based_formats :
    ∀ (hasTexCoords hasNormals : Bool) (faceVertexCounts : List ℕ)
      (faceVertexIndices : List ℤ),
      faceLines hasTexCoords hasNormals faceVertexCounts faceVertexIndices =
        (chunksOf faceVertexCounts faceVertexIndices).map
          (faceLine hasTexCoords hasNormals) ∧
      ∀ idx : ℤ,
        faceVertexStr hasTexCoords hasNormals idx =
          specVertexGroup hasTexCoords hasNormals idx := by
  intro ht hn counts idxs
  constructor
  · have h := faceLinesGo_eq_chunksOf ht hn idxs counts 0
    simpa [faceLines] using h
  · intro idx
    cases ht <;> cases hn <;> rfl

/-- Claim C9: every face-vertex group the exporter writes uses one single
flat index for all slots - there is one string `s`, the decimal rendering of
the one-based position index `idx + 1`, such that the group is ` s`,
` s/s`, ` s//s` or ` s/s/s`; a vertex whose position, UV and normal indices
differ is never emitted. -/
theorem c9_face_vertex_single_flat_index :
    ∀ (hasTexCoords hasNormals : Bool) (idx : ℤ),
      ∃ s : String, s = toString (idx + 1) ∧
        (faceVertexStr hasTexCoords hasNormals idx = " " ++ s ∨
         faceVertexStr hasTexCoords hasNormals idx = " " ++ s ++ "/" ++ s ∨
         faceVertexStr hasTexCoords hasNormals idx = " " ++ s ++ "//" ++ s ∨
         faceVertexStr hasTexCoords hasNormals idx =
           " " ++ s ++ "/" ++ s ++ "/" ++ s) := by
  intro ht hn idx
  refine ⟨toString (idx + 1), rfl, ?_⟩
  cases ht <;> cases hn
  · exact Or.inl rfl
  · exact Or.inr (Or.inr (Or.inl rfl))
  · exact Or.inr (Or.inl rfl)
  · exact Or.inr (Or.inr (Or.inr rfl))

/-- Claim C8: a prim whose type is neither the pseudo-root, nor `Xform`,
nor geometric (a `Scope`, `Material` or `Shader` node) makes the walker
mark its path visited and return: the resulting state differs from the
input state only by the inserted path, so no link or joint is created and
the children - any geometry nested beneath - are never traversed. -/
theorem c8_other_prim_types_mark_visited_and_stop [Mul α] [Add α]
    (st : ConvState α) (p : Prim α) (ancWorld : Mat4 α)
    (parentLink : Option String) (isRoot : Bool)
    (h1 : p.ty ≠ PrimType.pseudoRoot) (h2 : p.ty ≠ PrimType.xform)
    (h3 : isGeometricPrim p = false) :
    traversePrim st p ancWorld parentLink isRoot =
      if p.path ∈ st.visitedLinks then st
      else { st with visitedLinks := p.path :: st.visitedLinks } := by
  obtain ⟨links, joints, lc, jc, stack, vis⟩ := st
  obtain ⟨primPath, ty, xf, rA, hA, children⟩ := p
  simp only [Prim.ty] at h1 h2
  simp only [isGeometricPrim, Prim.ty] at h3
  simp only [traversePrim, Prim.path]
  by_cases hv : primPath ∈ vis
  · rw [if_pos hv, if_pos hv]
  · rw [if_neg hv, if_neg hv, if_neg h1,
      if_neg (fun he => h2 ((typeName_eq_xform_iff ty).mp he)),
      if_neg (by simp [h3])]

/-- Witness for claim C8: the `Scope` prim `/s` (which holds a mesh child)
is marked visited and nothing else happens - in particular the mesh below
it yields no link. -/
theorem c8_other_prim_types_witness :
    traversePrim (initState : ConvState ℤ) sceneScopeOverMesh Mat4.identity
        none false =
      { (initState : ConvState ℤ) with visitedLinks := ["/s"] } := by
  rw [c8_other_prim_types_mark_visited_and_stop (initState : ConvState ℤ)
    sceneScopeOverMesh Mat4.identity none false (by decide) (by decide)
    (by decide)]
  rfl

/-- No character of a `basename` result is a path separator. -/
theorem basenameChars_no_slash (cs : List Char) :
    ∀ acc : List Char, (∀ c ∈ acc, c ≠ '/') →
      ∀ c ∈ cs.foldl
        (fun acc c => if c = '/' then [] else acc ++ [c]) acc, c ≠ '/' := by
  induction cs with
  | nil => intro acc hacc; exact hacc
  | cons d ds ih =>
    intro acc hacc
    simp only [List.foldl_cons]
    apply ih
    by_cases hd : d = '/'
    · simp [hd]
    · intro c hc
      rw [if_neg hd] at hc
      rcases List.mem_append.mp hc with h | h
      · exact hacc c h
      · rw [List.mem_singleton.mp h]; exact hd

/-- `basename` never contains a separator. -/
theorem basename_no_slash (s : String) : ∀ c ∈ (basename s).data, c ≠ '/' := by
  intro c hc
  exact basenameChars_no_slash s.data [] (by simp) c hc

/-- Everything before the last separator is irrelevant to `basenameChars`. -/
theorem basenameChars_append_slash (xs ys : List Char) :
    basenameChars (xs ++ '/' :: ys) = basenameChars ys := by
  unfold basenameChars
  rw [List.foldl_append, List.foldl_cons, if_pos rfl]

/-- `basenameChars` is the identity on separator-free character lists. -/
theorem basenameChars_id_of_no_slash (cs : List Char)
    (h : ∀ c ∈ cs, c ≠ '/') : basenameChars cs = cs := by
  unfold basenameChars
  have hgen : ∀ (l : List Char) (acc : List Char), (∀ c ∈ l, c ≠ '/') →
      l.foldl (fun acc c => if c = '/' then [] else acc ++ [c]) acc =
        acc ++ l := by
    intro l
    induction l with
    | nil => intro acc _; simp
    | cons d ds ih =>
      intro acc hl
      have hd : d ≠ '/' := hl d (List.mem_cons_self d ds)
      simp only [List.foldl_cons, if_neg hd]
      rw [ih (acc ++ [d]) (fun c hc => hl c (List.mem_cons_of_mem d hc))]
      simp
  rw [hgen cs [] h, List.nil_append]

/-- Taking the basename of a joined destination path returns the original
basename. -/
theorem basename_after_join (dir s : String) :
    basename (dir ++ "/" ++ basename s) = basename s := by
  have h1 : (dir ++ "/" ++ basename s).data =
      dir.data ++ '/' :: (basename s).data := by
    rw [String.data_append, String.data_append]
    simp [List.append_assoc, show ("/" : String).data = ['/'] from rfl]
  have h2 : basename (dir ++ "/" ++ basename s) =
      String.mk (basenameChars (dir.data ++ '/' :: (basename s).data)) := by
    rw [show basename (dir ++ "/" ++ basename s) =
      String.mk (basenameChars (dir ++ "/" ++ basename s).data) from rfl, h1]
  rw [h2, basenameChars_append_slash,
    basenameChars_id_of_no_slash _ (basename_no_slash s)]

/-- Texture destination paths are fixed points of `texDest`. -/
theorem texDest_idem (dir src : String) :
    texDest dir (texDest dir src) = texDest dir src := by
  unfold texDest
  rw [basename_after_join]

/-- A copy attempt never overwrites an existing file. -/
theorem copyTexIfAbsent_preserves (fs : List (String × String))
    (dir src p c : String) (h : alLookup fs p = some c) :
    alLookup (copyTexIfAbsent fs dir src) p = some c := by
  unfold copyTexIfAbsent
  cases hdst : alLookup fs (texDest dir src) with
  | some v => exact h
  | none =>
    cases hsrc : alLookup fs src with
    | some content =>
      simp only [alLookup]
      by_cases he : texDest dir src = p
      · rw [he] at hdst; rw [hdst] at h; exact absurd h (by simp)
      · rw [if_neg he]; exact h
    | none => exact h

/-- A copy attempt creates at most the file at its destination path. -/
theorem copyTexIfAbsent_new (fs : List (String × String)) (dir src p : String)
    (h : alLookup (copyTexIfAbsent fs dir src) p ≠ none) :
    alLookup fs p ≠ none ∨ p = texDest dir src := by
  unfold copyTexIfAbsent at h
  cases hdst : alLookup fs (texDest dir src) with
  | some v => rw [hdst] at h; exact Or.inl h
  | none =>
    rw [hdst] at h
    cases hsrc : alLookup fs src with
    | some content =>
      rw [hsrc] at h
      simp only [alLookup] at h
      by_cases he : texDest dir src = p
      · exact Or.inr he.symm
      · rw [if_neg he] at h; exact Or.inl h
    | none => rw [hsrc] at h; exact Or.inl h

/-- With the destination already on disk the copy attempt is skipped. -/
theorem copyTexIfAbsent_id_of_dst (fs : List (String × String))
    (dir src : String) (h : alLookup fs (texDest dir src) ≠ none) :
    copyTexIfAbsent fs dir src = fs := by
  unfold copyTexIfAbsent
  cases hdst : alLookup fs (texDest dir src) with
  | some v => rfl
  | none => exact absurd hdst h

/-- With the source missing the copy attempt fails and changes nothing. -/
theorem copyTexIfAbsent_id_of_src (fs : List (String × String))
    (dir src : String) (h : alLookup fs src = none) :
    copyTexIfAbsent fs dir src = fs := by
  unfold copyTexIfAbsent
  cases hdst : alLookup fs (texDest dir src) with
  | some v => rfl
  | none => rw [h]

/-- After a copy attempt, either its destination exists or its source is
still missing. -/
theorem copyTexIfAbsent_post (fs : List (String × String))
    (dir src : String) :
    alLookup (copyTexIfAbsent fs dir src) (texDest dir src) ≠ none ∨
    alLookup (copyTexIfAbsent fs dir src) src = none := by
  unfold copyTexIfAbsent
  cases hdst : alLookup fs (texDest dir src) with
  | some v => left; rw [hdst]; simp
  | none =>
    cases hsrc : alLookup fs src with
    | some content => left; simp [alLookup]
    | none => right; exact hsrc

/-- A sequence of copy attempts never overwrites an existing file. -/
theorem copySteps_preserves (dir : String) (srcs : List String) :
    ∀ (fs : List (String × String)) (p c : String), alLookup fs p = some c →
      alLookup (copySteps fs dir srcs) p = some c := by
  induction srcs with
  | nil => intro fs p c h; exact h
  | cons s ss ih =>
    intro fs p c h
    exact ih _ _ _ (copyTexIfAbsent_preserves fs dir s p c h)

/-- Files present before a sequence of copy attempts are present after. -/
theorem copySteps_present_mono (dir : String) (srcs : List String)
    (fs : List (String × String)) (p : String)
    (h : alLookup fs p ≠ none) :
    alLookup (copySteps fs dir srcs) p ≠ none := by
  cases hc : alLookup fs p with
  | none => exact absurd hc h
  | some c => rw [copySteps_preserves dir srcs fs p c hc]; simp

/-- Every file a sequence of copy attempts creates sits at a
`texDest`-fixed path. -/
theorem copySteps_new (dir : String) (srcs : List String) :
    ∀ (fs : List (String × String)) (p : String),
      alLookup (copySteps fs dir srcs) p ≠ none →
      alLookup fs p ≠ none ∨ texDest dir p = p := by
  induction srcs with
  | nil => intro fs p h; exact Or.inl h
  | cons s ss ih =>
    intro fs p h
    rcases ih _ _ h with h1 | h2
    · rcases copyTexIfAbsent_new fs dir s p h1 with h3 | h4
      · exact Or.inl h3
      · right; rw [h4]; exact texDest_idem dir s
    · exact Or.inr h2

/-- After a full pass, every attempted source either has its destination on
disk or is itself still missing. -/
theorem copySteps_establishes (dir : String) (srcs : List String) :
    ∀ fs : List (String × String), ∀ src ∈ srcs,
      alLookup (copySteps fs dir srcs) (texDest dir src) ≠ none ∨
      alLookup (copySteps fs dir srcs) src = none := by
  induction srcs with
  | nil => intro fs src h; exact absurd h (List.not_mem_nil _)
  | cons s ss ih =>
    intro fs src hmem
    rcases List.mem_cons.mp hmem with rfl | hss
    · rcases copyTexIfAbsent_post fs dir src with h1 | h2
      · exact Or.inl (copySteps_present_mono dir ss _ _ h1)
      · by_cases hfin :
          alLookup (copySteps (copyTexIfAbsent fs dir src) dir ss) src = none
        · exact Or.inr hfin
        · rcases copySteps_new dir ss _ _ hfin with h3 | h4
          · exact absurd h2 h3
          · left; rw [h4]; exact hfin
    · exact ih _ src hss

/-- A pass in which every source is already established does nothing. -/
theorem copySteps_id (dir : String) (srcs : List String) :
    ∀ fs : List (String × String),
      (∀ src ∈ srcs,
        alLookup fs (texDest dir src) ≠ none ∨ alLookup fs src = none) →
      copySteps fs dir srcs = fs := by
  induction srcs with
  | nil => intro fs _; rfl
  | cons s ss ih =>
    intro fs h
    have hstep : copyTexIfAbsent fs dir s = fs := by
      rcases h s (List.mem_cons_self s ss) with h1 | h2
      · exact copyTexIfAbsent_id_of_dst fs dir s h1
      · exact copyTexIfAbsent_id_of_src fs dir s h2
    show copySteps (copyTexIfAbsent fs dir s) dir ss = fs
    rw [hstep]
    exact ih fs (fun src hm => h src (List.mem_cons_of_mem s hm))

/-- The skip-diffuse-and-normal fold equals a pass over the filtered
source list. -/
theorem foldl_skip_eq_filter (dir : String) (tf : List (String × String)) :
    ∀ fs : List (String × String),
      tf.foldl
        (fun acc p =>
          if p.1 == "diffuse" || p.1 == "normal" then acc
          else copyTexIfAbsent acc dir p.2) fs =
      copySteps fs dir
        ((tf.filter
          (fun p => !(p.1 == "diffuse" || p.1 == "normal"))).map
            Prod.snd) := by
  induction tf with
  | nil => intro fs; rfl
  | cons q qs ih =>
    intro fs
    by_cases hq : (q.1 == "diffuse" || q.1 == "normal") = true
    · simp only [List.foldl_cons]
      rw [if_pos hq, ih fs]
      congr 1
      rw [List.filter_cons, if_neg (by simp [hq])]
    · simp only [List.foldl_cons]
      rw [if_neg hq, ih (copyTexIfAbsent fs dir q.2)]
      rw [List.filter_cons, if_pos (by simp [hq]), List.map_cons]
      rfl

/-- `write_material_file`'s texture handling is one pass of copy attempts
over its sources in execution order. -/
theorem writeMaterialTexCopies_eq (fs : List (String × String))
    (dir : String) (tf : List (String × String)) :
    writeMaterialTexCopies fs dir tf = copySteps fs dir (copySrcOrder tf) := by
  unfold writeMaterialTexCopies copySrcOrder
  cases hd : alLookup tf "diffuse" <;> cases hn : alLookup tf "normal" <;>
    · simp only [copySteps, List.foldl_append, List.foldl_cons,
        List.foldl_nil, List.nil_append]
      exact foldl_skip_eq_filter dir tf _

/-- Claim C7: the texture-copy step of the resolver is idempotent - running
`write_material_file`'s copy pass a second time against the same textures
directory with unchanged sources changes nothing - and it never alters the
content of a file that already exists (a texture is copied only when no
same-named file is present). -/
theorem c7_texture_copy_idempotent :
    ∀ (fs : List (String × String)) (texturesDir : String)
      (textureFiles : List (String × String)),
      writeMaterialTexCopies
          (writeMaterialTexCopies fs texturesDir textureFiles) texturesDir
          textureFiles =
        writeMaterialTexCopies fs texturesDir textureFiles ∧
      ∀ p c : String, alLookup fs p = some c →
        alLookup (writeMaterialTexCopies fs texturesDir textureFiles) p =
          some c := by
  intro fs dir tf
  constructor
  · rw [writeMaterialTexCopies_eq fs dir tf, writeMaterialTexCopies_eq]
    exact copySteps_id dir (copySrcOrder tf) _
      (copySteps_establishes dir (copySrcOrder tf) fs)
  · intro p c h
    rw [writeMaterialTexCopies_eq]
    exact copySteps_preserves dir (copySrcOrder tf) fs p c h

/-- Witness for claim C7: with `textures/wood.png` already on disk holding
`old` and a diffuse source `/assets/wood.png` holding `new`, a second pass
changes nothing and the existing destination keeps content `old`. -/
theorem c7_texture_copy_idempotent_witness :
    writeMaterialTexCopies
        (writeMaterialTexCopies fsWood "textures" texFilesWood) "textures"
        texFilesWood =
      writeMaterialTexCopies fsWood "textures" texFilesWood ∧
    alLookup (writeMaterialTexCopies fsWood "textures" texFilesWood)
        "textures/wood.png" = some "old" := by
  obtain ⟨h1, h2⟩ := c7_texture_copy_idempotent fsWood "textures" texFilesWood
  exact ⟨h1, h2 "textures/wood.png" "old" rfl⟩

/-- Claim C10: an authored radius or height of `0` on a cylinder, sphere or
cone prim is exported exactly as if the attribute were absent - the Python
`or` default applies to the falsy `0.0` - yielding radius `0.1` and height
`0.2`. -/
theorem c10_zero_radius_height_export_defaults :
    (∀ other : Option ℚ,
        addCylinderGeometry (some 0) other = addCylinderGeometry none other ∧
        addCylinderGeometry other (some 0) = addCylinderGeometry other none ∧
        addConeGeometry (some 0) other = addConeGeometry none other ∧
        addConeGeometry other (some 0) = addConeGeometry other none) ∧
    addSphereGeometry (some 0) = addSphereGeometry none ∧
    addCylinderGeometry (some 0) (some 0) = GeomRec.cylinderGeom 0.1 0.2 ∧
    addSphereGeometry (some 0) = GeomRec.sphereGeom 0.1 ∧
    addConeGeometry (some 0) (some 0) = GeomRec.coneGeom 0.1 0.2 :=
  ⟨fun _ => ⟨rfl, rfl, rfl, rfl⟩, rfl, rfl, rfl, rfl⟩
